import Mathlib

/-!
Shallow embedding of the hvapi object-graph traversal and remote-invocation
engine (src/hvapi/clr/traversal.py, base.py, invoke.py, classes_wrappers.py).

Remote state (the WMI object graph) is modelled by an explicit environment of
capabilities; Python exceptions are modelled with `Except` over an error type
whose constructors correspond to the distinct raise sites of the source.
-/

namespace HvApi

/-- Scalar values held in a WMI property store (CIM properties are scalars or
one-dimensional arrays of scalars). -/
inductive PyScalar where
  | vnone
  | vint (n : Int)
  | vbool (b : Bool)
  | vstr (s : String)
  deriving DecidableEq

/-- A property value: a scalar or a one-dimensional array of scalars
(`val.GetType().IsArray` in the source distinguishes the two). -/
inductive PyVal where
  | scalar (v : PyScalar)
  | array (xs : List PyScalar)
  deriving DecidableEq

/-- Python `str()` of a scalar value. -/
def pyStrScalar : PyScalar → String
  | .vnone => ("None")
  | .vint n => toString n
  | .vbool b => if b then ("True") else ("False")
  | .vstr s => s

/-- Python `str()` of a property value. Arrays render as an opaque CLR text
form which no code in the repository ever compares against; it is modelled as
a fixed tag. -/
def pyStr : PyVal → String
  | .scalar v => pyStrScalar v
  | .array _ => ("<array>")

/-- A handle to a remote object instance: an identity plus its named property
store (`ManagementObject` in the source). Python `==` between two handles is
modelled as equality of this structure. -/
structure ManagementObject where
  id : Nat
  props : List (String × PyVal)
  deriving DecidableEq

/-- The distinct exception sites of the engine, one constructor per raise
site / exception class observed in the source. -/
inductive PyError where
  /-- `System.Management.ManagementException`: property store signals the name
  is unknown or inaccessible. -/
  | managementException
  /-- Python `AttributeError` from default attribute lookup. -/
  | attributeError
  /-- Python `IndexError` from indexing an empty list. -/
  | indexError
  /-- Python `ValueError` from tuple-unpacking a dict key in
  `PropertiesSelector.is_acceptable`. -/
  | valueErrorUnpack
  /-- `ValueError` in `NullTransformer.transform`: value is not a
  `ManagementObject` instance. -/
  | valueErrorNotMO
  /-- `ValueError` in `transform_argument`: a `ManagementObject` cannot be
  transformed to the expected type. -/
  | cannotTransform
  /-- `Exception` in `transform_argument`: unknown object to transform. -/
  | unknownTransform
  /-- `Exception` in `CimTypeTransformer.target_class`: unknown type. -/
  | unknownType
  /-- `ValueError` in `invoke`: a formal parameter is absent from kwargs. -/
  | missingParameter (name : String)
  /-- `ValueError` in `invoke`: an array parameter's argument is not iterable. -/
  | notIterable (name : String)
  /-- `Exception` in `get_child`: more than one child found for given path. -/
  | ambiguousResult
  /-- `InvocationException`: return code recognized as neither ok nor
  job-started. -/
  | invocationFailed
  /-- `JobException`: job reached a terminal state other than Completed; it
  carries the job's ErrorCode, JobStatus and ErrorDescription properties. -/
  | jobFailure (code : Int) (status : String) (description : String)
  /-- Not a Python exception: the supplied finite trace of job state reads was
  exhausted while the (unbounded) wait loop was still polling. -/
  | traceExhausted
  deriving DecidableEq

/-- External capabilities of the remote management host consumed by the
engine: related/relationship enumeration, reference materialization
(`ManagementObject(path)`), and canonical text form (`GetText(2)`). -/
structure WmiEnv where
  getRelated : ManagementObject → List PyScalar → List ManagementObject
  getRelationships : ManagementObject → List PyScalar → List ManagementObject
  fromRef : String → ManagementObject
  getText : ManagementObject → String

/-- Look up a property value in an object's store; absence raises
`ManagementException` (models `mo.Properties[name].Value`). -/
def getProp (mo : ManagementObject) (name : String) : Except PyError PyVal :=
  match mo.props.lookup name with
  | some v => Except.ok v
  | none => Except.error PyError.managementException

/-- Selectors from src/hvapi/clr/traversal.py: `NullSelector` accepts
everything, `PropertiesSelector(**kwargs)` stores its kwargs dict. -/
inductive Selector where
  | null
  | propertiesSelector (props : List (String × PyVal))

/-- The loop body of `PropertiesSelector.is_acceptable`, translated verbatim:
`for property_name, expected_value in self.properties:` iterates the dict
(yielding its KEYS in insertion order) and tuple-unpacks each key string into
two variables, which succeeds only for keys of exactly two characters and
then binds the two characters. -/
def properties_selector_loop (mo : ManagementObject) : List (String × PyVal) → Except PyError Bool
  | [] => Except.ok true
  | (key, _expected) :: rest =>
    match key.data with
    | [c₁, c₂] => do
      let v ← getProp mo (String.mk [c₁])
      if pyStr v ≠ String.mk [c₂] then Except.ok false
      else properties_selector_loop mo rest
    | _ => Except.error PyError.valueErrorUnpack

/-- `Selector.is_acceptable` from the source. -/
def Selector.is_acceptable : Selector → ManagementObject → Except PyError Bool
  | .null, _ => Except.ok true
  | .propertiesSelector props, mo => properties_selector_loop mo props

/-- `PropertyTransformer.transform(property_value, parent)` interface; the
environment is threaded because `ReferenceTransformer` materializes a handle
from a reference string. -/
def PropertyTransformer : Type :=
  WmiEnv → PyScalar → ManagementObject → Except PyError ManagementObject

/-- `NullTransformer`: returns the value if it is a `ManagementObject`
instance, else raises `ValueError`. Property-store values are scalars in this
model, so the instance check never succeeds. -/
def NullTransformer : PropertyTransformer :=
  fun _ _ _ => Except.error PyError.valueErrorNotMO

/-- `ReferenceTransformer`: `ManagementObject(property_value)` materializes a
handle from the reference string. -/
def ReferenceTransformer : PropertyTransformer :=
  fun env v _ =>
    match v with
    | .vstr s => Except.ok (env.fromRef s)
    | _ => Except.error PyError.valueErrorNotMO

/-- Traversal step kinds from src/hvapi/clr/traversal.py. -/
inductive Node where
  | property (property_name : String) (transformer : PropertyTransformer) (selector : Selector)
  | related (related_arguments : List PyScalar) (selector : Selector)
  | relationship (relationship_arguments : List PyScalar) (selector : Selector)

/-- Shared loop of `RelatedNode.get_node_objects` and
`RelationshipNode.get_node_objects`: each candidate not equal to the source
object is kept when the selector accepts it. -/
def filter_candidates (src : ManagementObject) (sel : Selector) :
    List ManagementObject → Except PyError (List ManagementObject)
  | [] => Except.ok []
  | rel :: rest =>
    if src = rel then filter_candidates src sel rest
    else do
      let ok ← sel.is_acceptable rel
      let tail ← filter_candidates src sel rest
      pure (if ok then rel :: tail else tail)

/-- Loop of `PropertyNode.get_node_objects` over array elements: transform each
value, keep it when the selector accepts it. -/
def transform_filter (env : WmiEnv) (tf : PropertyTransformer) (sel : Selector)
    (parent : ManagementObject) : List PyScalar → Except PyError (List ManagementObject)
  | [] => Except.ok []
  | v :: rest => do
    let r ← tf env v parent
    let ok ← sel.is_acceptable r
    let tail ← transform_filter env tf sel parent rest
    pure (if ok then r :: tail else tail)

/-- `Node.get_node_objects(management_object)` for each node kind. -/
def Node.get_node_objects (node : Node) (env : WmiEnv) (mo : ManagementObject) :
    Except PyError (List ManagementObject) :=
  match node with
  | .property name tf sel => do
    let val ← getProp mo name
    match val with
    | .array items => transform_filter env tf sel mo items
    | .scalar v => do
      let r ← tf env v mo
      let ok ← sel.is_acceptable r
      pure (if ok then [r] else [])
  | .related args sel => filter_candidates mo sel (env.getRelated mo args)
  | .relationship args sel => filter_candidates mo sel (env.getRelationships mo args)

/-- Inner loop of `recursive_traverse`: for each object produced by the head
node (in order), compute the recursive result and prepend the object to each
of its paths. -/
def traverse_children (f : ManagementObject → Except PyError (List (List ManagementObject))) :
    List ManagementObject → Except PyError (List (List ManagementObject))
  | [] => Except.ok []
  | obj :: rest => do
    let children ← f obj
    let tail ← traverse_children f rest
    pure (children.map (fun cs => obj :: cs) ++ tail)

/-- `recursive_traverse(traverse_path, parent)` from src/hvapi/clr/traversal.py
(identical recursion in `ManagementObject._internal_traversal`). An empty
traverse path falls into the else branch where `traverse_path[0]` raises
`IndexError`. -/
def recursive_traverse (env : WmiEnv) : List Node → ManagementObject →
    Except PyError (List (List ManagementObject))
  | [], _ => Except.error PyError.indexError
  | [nd], parent => do
    let objs ← nd.get_node_objects env parent
    pure (objs.map fun o => [o])
  | nd :: nd₂ :: rest, parent => do
    let objs ← nd.get_node_objects env parent
    traverse_children (fun o => recursive_traverse env (nd₂ :: rest) o) objs

/-- `ManagementObject.get_child(traverse_path)`: traverse, raise when more than
one path was found, and return `traverse_result[-1][-1]` (which raises
`IndexError` when the traversal found no path at all). -/
def get_child (env : WmiEnv) (nodes : List Node) (root : ManagementObject) :
    Except PyError ManagementObject := do
  let traverse_result ← recursive_traverse env nodes root
  if traverse_result.length > 1 then
    Except.error PyError.ambiguousResult
  else
    match traverse_result.getLast? with
    | none => Except.error PyError.indexError
    | some p =>
      match p.getLast? with
      | none => Except.error PyError.indexError
      | some leaf => Except.ok leaf

/-- CIM type tags of remote method parameters (`System.Management.CimType`);
`other` stands for every tag outside the handled set. -/
inductive CimType where
  | string
  | reference
  | uint32
  | uint16
  | datetime
  | boolean
  | other
  deriving DecidableEq

/-- Target classes returned by `CimTypeTransformer.target_class`. -/
inductive TargetClass where
  | tString
  | tManagementObject
  | tInt
  | tBool
  deriving DecidableEq

/-- `CimTypeTransformer.target_class(value)` from src/hvapi/clr/base.py:
String/DateTime map to `String`, Reference to `ManagementObject`,
UInt32/UInt16 to `int`, Boolean to `bool`; anything else raises. -/
def target_class : CimType → Except PyError TargetClass
  | .string => Except.ok TargetClass.tString
  | .reference => Except.ok TargetClass.tManagementObject
  | .uint32 => Except.ok TargetClass.tInt
  | .uint16 => Except.ok TargetClass.tInt
  | .datetime => Except.ok TargetClass.tString
  | .boolean => Except.ok TargetClass.tBool
  | .other => Except.error PyError.unknownType

/-- A caller-supplied scalar argument to `invoke` / `transform_argument`.
Python `str` and CLR `String` are merged into one constructor: every
isinstance test in the source treats them as one class set. -/
inductive Arg where
  | anone
  | amo (m : ManagementObject)
  | astr (s : String)
  | aint (n : Int)
  | abool (b : Bool)
  deriving DecidableEq

/-- `transform_argument(obj, expected_type)` from src/hvapi/clr/invoke.py
(line-identical to `ManagementObject.invoke_transform_object` in base.py),
with the source's isinstance tests translated in order. Note that Python's
`isinstance(obj, int)` is true for `bool` values as well (bool is a subtype
of int), so the `aint`/`abool` branches below both pass the int test. -/
def transform_argument (env : WmiEnv) (obj : Arg) (expected : TargetClass) : Except PyError Arg :=
  match obj with
  | .anone => Except.ok Arg.anone
  | .amo m =>
    if expected = TargetClass.tString then Except.ok (Arg.astr (env.getText m))
    else if expected = TargetClass.tManagementObject then Except.ok (Arg.amo m)
    else Except.error PyError.cannotTransform
  | .astr s =>
    if expected = TargetClass.tManagementObject then Except.ok (Arg.amo (env.fromRef s))
    else if expected = TargetClass.tString then Except.ok (Arg.astr s)
    else Except.error PyError.unknownTransform
  | .aint n =>
    if expected = TargetClass.tInt then Except.ok (Arg.aint n)
    else Except.error PyError.unknownTransform
  | .abool b =>
    if expected = TargetClass.tInt then Except.ok (Arg.abool b)
    else if expected = TargetClass.tBool then Except.ok (Arg.abool b)
    else Except.error PyError.unknownTransform

/-- A value supplied in `invoke`'s kwargs: a scalar or a Python list. -/
inductive ArgVal where
  | scalar (a : Arg)
  | alist (xs : List Arg)
  deriving DecidableEq

/-- The `isinstance(value, collections.Iterable)` check plus iteration used for
array parameters: lists iterate their elements; a string is iterable and
yields its characters (the gotcha the source itself warns about for
`clr_Array`); everything else raises `ValueError("... must be iterable")`. -/
def iterate_arg (name : String) : ArgVal → Except PyError (List Arg)
  | .alist xs => Except.ok xs
  | .scalar (.astr s) => Except.ok (s.data.map fun c => Arg.astr (String.mk [c]))
  | .scalar _ => Except.error (PyError.notIterable name)

/-- A formal parameter of a remote method, as returned by the method metadata
capability (`GetMethodParameters`: name, CIM type tag, array flag). The
source's field `Type` is spelled `ctype` here because `Type` is a Lean
keyword. -/
structure FormalParam where
  Name : String
  ctype : CimType
  IsArray : Bool
  deriving DecidableEq

/-- A prepared parameter value as submitted to the remote call: a transformed
scalar or a non-empty CLR array. `none` at the use site stands for Python
`None` (absent). -/
inductive PrepVal where
  | pscalar (a : Arg)
  | parr (xs : List Arg)
  deriving DecidableEq

/-- One iteration of `invoke`'s parameter loop, in source order: compute the
target class of the parameter's type, require the parameter present in
kwargs, then transform the supplied value (element-wise for arrays, with an
empty transformed array becoming `None` rather than an empty collection). -/
def prepare_step (env : WmiEnv) (kwargs : List (String × ArgVal)) (p : FormalParam) :
    Except PyError (String × Option PrepVal) := do
  let ptype ← target_class p.ctype
  match kwargs.lookup p.Name with
  | none => Except.error (PyError.missingParameter p.Name)
  | some v =>
    if p.IsArray then do
      let items ← iterate_arg p.Name v
      let array_items ← items.mapM (fun it => transform_argument env it ptype)
      if array_items = [] then pure (p.Name, none)
      else pure (p.Name, some (PrepVal.parr array_items))
    else
      match v with
      | .scalar a => do
        let r ← transform_argument env a ptype
        pure (p.Name, match r with | .anone => none | r => some (PrepVal.pscalar r))
      | .alist _ => Except.error PyError.unknownTransform

/-- `invoke`'s parameter loop over the full formal parameter list. -/
def prepare (env : WmiEnv) (kwargs : List (String × ArgVal)) :
    List FormalParam → Except PyError (List (String × Option PrepVal))
  | [] => Except.ok []
  | p :: rest => do
    let x ← prepare_step env kwargs p
    let xs ← prepare env kwargs rest
    pure (x :: xs)

/-- An output property of the remote call's result bag (the source's field
`Type` is spelled `ctype` here because `Type` is a Lean keyword). -/
structure OutProp where
  Name : String
  ctype : CimType
  IsArray : Bool
  Value : Option ArgVal
  deriving DecidableEq

/-- The result-transformation loop of `invoke`: every output property is
mapped back through the type transformer (`None` stays `None`, arrays
element-wise). Iterating a non-list scalar under the array flag is modelled
like `iterate_arg` (strings yield characters, the rest cannot occur for CLR
array-valued output properties). -/
def transform_out (env : WmiEnv) (oprop : OutProp) : Except PyError (String × Option ArgVal) := do
  let ptype ← target_class oprop.ctype
  match oprop.Value with
  | none => pure (oprop.Name, none)
  | some v =>
    if oprop.IsArray then do
      let items ← iterate_arg oprop.Name v
      let ys ← items.mapM (fun it => transform_argument env it ptype)
      pure (oprop.Name, some (ArgVal.alist ys))
    else
      match v with
      | .scalar a => do
        let r ← transform_argument env a ptype
        pure (oprop.Name, some (ArgVal.scalar r))
      | .alist _ => Except.error PyError.unknownTransform

/-- `ManagementObject.invoke(method_name, **kwargs)` with the formal parameter
list (method metadata capability) and the remote method-call capability
passed explicitly: prepare every parameter, submit the call, transform the
output bag. The call capability is invoked only after every parameter
prepared successfully. -/
def invoke (env : WmiEnv) (call : List (String × Option PrepVal) → List OutProp)
    (formals : List FormalParam) (kwargs : List (String × ArgVal)) :
    Except PyError (List (String × Option ArgVal)) := do
  let params ← prepare env kwargs formals
  let invocation_result := call params
  invocation_result.mapM (fun oprop => transform_out env oprop)

/-- Job states (`Msvm_ConcreteJob_JobState`). Modelled from the spec: the
enumeration lives in hvapi/clr/types.py which is not under src/; the spec
fixes the members {Running, Completed, Terminated, Killed, Exception, ...}
and classes_wrappers.py names the four terminal ones. -/
inductive JobState where
  | newState
  | running
  | completed
  | terminated
  | killed
  | exceptionState
  deriving DecidableEq

/-- Membership in the terminal-state list of `JobWrapper.wait`:
`[Completed, Terminated, Killed, Exception]`. -/
def JobState.isTerminal : JobState → Bool
  | .completed => true
  | .terminated => true
  | .killed => true
  | .exceptionState => true
  | _ => false

/-- Outcome of the wait loop over a finite trace of job state reads,
instrumented with the number of reads of the job's `JobState` property. -/
inductive WaitResult where
  | ok (reads : Nat)
  | failure (reads : Nat)
  | outOfTrace
  deriving DecidableEq

/-- The while loop of `JobWrapper.wait`: `job_state` holds the latest read;
while it is not terminal, read the state again (then re-fetch and sleep).
`outOfTrace` models exhausting the supplied finite trace while the unbounded
loop would still be polling. -/
def wait_aux (state : JobState) (rest : List JobState) (reads : Nat) : WaitResult :=
  if state.isTerminal then
    if state = JobState.completed then WaitResult.ok reads else WaitResult.failure reads
  else
    match rest with
    | [] => WaitResult.outOfTrace
    | s :: more => wait_aux s more (reads + 1)

/-- `JobWrapper.wait(self)` from src/hvapi/clr/classes_wrappers.py, over the
trace of successive values returned by the job's `JobState` property reads:
one initial read, then one further read per loop iteration; on reaching a
terminal state other than Completed, `JobException` is raised. -/
def JobWrapper_wait : List JobState → WaitResult
  | [] => WaitResult.outOfTrace
  | s :: rest => wait_aux s rest 1

/-- The referenced job object: its successive `JobState` reads and the error
fields `JobException` reports (`ErrorCode`, `JobStatus`, `ErrorDescription`). -/
structure JobData where
  stateReads : List JobState
  ErrorCode : Int
  JobStatus : String
  ErrorDescription : String
  deriving DecidableEq

/-- An invocation result bag: the numeric `ReturnValue`, the referenced job
(resolved from the `Job` output parameter), and the remaining outputs. -/
structure InvocationResult where
  ReturnValue : Nat
  Job : JobData
  outputs : List (String × Option ArgVal)
  deriving DecidableEq

/-- `evaluate_invocation_result(result, codes_enum, ok_value, job_value)` from
src/hvapi/clr/invoke.py. `from_code` models `codes_enum.from_code`
(`RangedCodeEnum`, whose definition is not under src/): it decodes the
numeric return code into an enumeration member of an arbitrary type `RC`.
If the code decodes to `job_value`, the referenced job is waited on
(`JobWrapper.wait`); on success the original result is returned unchanged,
paired here with the instrumented count of job state reads (0 when no job
was waited on). A code equal to neither `job_value` nor `ok_value` raises
`InvocationException`. -/
def evaluate_invocation_result {RC : Type} [DecidableEq RC] (from_code : Nat → RC)
    (result : InvocationResult) (ok_value job_value : RC) :
    Except PyError (InvocationResult × Nat) :=
  let return_value := from_code result.ReturnValue
  if return_value = job_value then
    match JobWrapper_wait result.Job.stateReads with
    | .ok n => Except.ok (result, n)
    | .failure _ =>
      Except.error (PyError.jobFailure result.Job.ErrorCode result.Job.JobStatus
        result.Job.ErrorDescription)
    | .outOfTrace => Except.error PyError.traceExhausted
  else if return_value ≠ ok_value then Except.error PyError.invocationFailed
  else Except.ok (result, 0)

/-- `PropertiesHolder.__getattribute__(key)` from src/hvapi/clr/base.py: for
any key other than the `management_object` field the property store is read
first; a `ManagementException` is swallowed and the lookup falls back to
default attribute lookup, which returns the wrapped object for
`management_object` (modelled as `ok none`, not a property value) and raises
`AttributeError` for every other name that is not an attribute of the
holder. -/
def PropertiesHolder_getattribute (mo : ManagementObject) (key : String) :
    Except PyError (Option PyVal) :=
  if key = ("management_object") then Except.ok none
  else
    match mo.props.lookup key with
    | some v => Except.ok (some v)
    | none => Except.error PyError.attributeError

/-- `PropertiesHolder.__getitem__(item)` from src/hvapi/clr/base.py: a plain
property-store read with no exception handling, so an absent property fails
loudly with `ManagementException`. -/
def PropertiesHolder_getitem (mo : ManagementObject) (item : String) :
    Except PyError PyVal :=
  match mo.props.lookup item with
  | some v => Except.ok v
  | none => Except.error PyError.managementException

/-- True exactly when an `Except` computation succeeded. -/
def exceptOk {ε α : Type} : Except ε α → Bool
  | .ok _ => true
  | .error _ => false

@[simp]
theorem except_bind_ok {ε α β : Type} (a : α) (f : α → Except ε β) :
    (Except.ok a : Except ε α) >>= f = f a := rfl

@[simp]
theorem except_bind_error {ε α β : Type} (e : ε) (f : α → Except ε β) :
    (Except.error e : Except ε α) >>= f = Except.error e := rfl

/-- An environment in which every enumeration capability returns nothing. -/
def trivialEnv : WmiEnv :=
  ⟨fun _ _ => [], fun _ _ => [], fun _ => ⟨0, []⟩, fun _ => ("")⟩

/-- C10: for the empty traversal template and any root object, the traversal
raises an error (the `else` branch evaluates `traverse_path[0]` on an empty
sequence, raising `IndexError`) rather than returning any result, so every
traversal call requires a non-empty node sequence. -/
theorem traverse_empty_template_raises (env : WmiEnv) (root : ManagementObject) :
    recursive_traverse env [] root = Except.error PyError.indexError := rfl

/-- C2: when the return code decodes to the job-started value and the job's
successive state reads are Running, Running, Completed, the evaluator returns
the original result unchanged, having performed exactly three reads of the
job's state. -/
theorem evaluate_job_three_reads (RC : Type) [DecidableEq RC] (from_code : Nat → RC)
    (ok_value job_value : RC) (result : InvocationResult)
    (hcode : from_code result.ReturnValue = job_value)
    (hreads : result.Job.stateReads =
      [JobState.running, JobState.running, JobState.completed]) :
    evaluate_invocation_result from_code result ok_value job_value =
      Except.ok (result, 3) := by
  simp [evaluate_invocation_result, hcode, hreads, JobWrapper_wait, wait_aux,
    JobState.isTerminal]

/-- C2 witness: a concrete invocation result exercising the job path. -/
theorem evaluate_job_three_reads_witness :
    evaluate_invocation_result (fun _ => true)
      ⟨4096, ⟨[JobState.running, JobState.running, JobState.completed], 0, (""), ("")⟩, []⟩
      false true =
      Except.ok (⟨4096, ⟨[JobState.running, JobState.running, JobState.completed],
        0, (""), ("")⟩, []⟩, 3) :=
  evaluate_job_three_reads Bool (fun _ => true) false true
    ⟨4096, ⟨[JobState.running, JobState.running, JobState.completed], 0, (""), ("")⟩, []⟩
    rfl rfl

/-- One loop iteration: a non-terminal latest read causes one further read. -/
theorem wait_aux_step (s x : JobState) (rest : List JobState) (k : Nat)
    (hs : s.isTerminal = false) :
    wait_aux s (x :: rest) k = wait_aux x rest (k + 1) := by
  rw [wait_aux, hs]
  rfl

/-- Loop exit on a terminal state other than Completed raises `JobException`. -/
theorem wait_aux_terminal_failure (s : JobState) (rest : List JobState) (k : Nat)
    (hs : s.isTerminal = true) (hsc : s ≠ JobState.completed) :
    wait_aux s rest k = WaitResult.failure k := by
  rw [wait_aux.eq_def, hs]
  simp [hsc]

/-- The wait loop, started on a non-terminal state, steps through further
non-terminal reads and fails at the first terminal read if that state is not
Completed. -/
theorem wait_aux_failure (pre : List JobState) :
    ∀ (s t : JobState) (post : List JobState) (k : Nat),
      s.isTerminal = false → (∀ x ∈ pre, x.isTerminal = false) →
      t.isTerminal = true → t ≠ JobState.completed →
      wait_aux s (pre ++ t :: post) k = WaitResult.failure (k + pre.length + 1) := by
  induction pre with
  | nil =>
    intro s t post k hs _ ht htc
    rw [List.nil_append, wait_aux_step s t post k hs,
      wait_aux_terminal_failure t post (k + 1) ht htc]
    simp
  | cons x pre ih =>
    intro s t post k hs hpre ht htc
    have hx : x.isTerminal = false := hpre x (by simp)
    rw [List.cons_append, wait_aux_step s x (pre ++ t :: post) k hs,
      ih x t post (k + 1) hx (fun y hy => hpre y (by simp [hy])) ht htc]
    congr 1
    simp
    omega

/-- `JobWrapper.wait` fails after reading through the non-terminal prefix and
the first terminal state when that state is not Completed. -/
theorem wait_failure (pre : List JobState) (t : JobState) (post : List JobState)
    (hpre : ∀ x ∈ pre, x.isTerminal = false)
    (ht : t.isTerminal = true) (htc : t ≠ JobState.completed) :
    JobWrapper_wait (pre ++ t :: post) = WaitResult.failure (pre.length + 1) := by
  cases pre with
  | nil =>
    rw [List.nil_append, JobWrapper_wait, wait_aux_terminal_failure t post 1 ht htc]
    simp
  | cons s pre =>
    have hs : s.isTerminal = false := hpre s (by simp)
    rw [List.cons_append, JobWrapper_wait,
      wait_aux_failure pre s t post 1 hs (fun y hy => hpre y (by simp [hy])) ht htc]
    congr 1
    simp
    omega

/-- C3: when the return code decodes to the job-started value and the job's
state reads reach a first terminal state other than Completed, the evaluator
fails with `JobFailure` carrying the job's error code, job status and error
description. -/
theorem evaluate_job_failure (RC : Type) [DecidableEq RC] (from_code : Nat → RC)
    (ok_value job_value : RC) (result : InvocationResult)
    (pre : List JobState) (t : JobState) (post : List JobState)
    (hcode : from_code result.ReturnValue = job_value)
    (hreads : result.Job.stateReads = pre ++ t :: post)
    (hpre : ∀ x ∈ pre, x.isTerminal = false)
    (ht : t.isTerminal = true) (htc : t ≠ JobState.completed) :
    evaluate_invocation_result from_code result ok_value job_value =
      Except.error (PyError.jobFailure result.Job.ErrorCode result.Job.JobStatus
        result.Job.ErrorDescription) := by
  have hw := wait_failure pre t post hpre ht htc
  simp [evaluate_invocation_result, hcode, hreads, hw]

/-- C3 witness: a job transitioning Running then Terminated fails with the
job's error fields. -/
theorem evaluate_job_failure_witness :
    evaluate_invocation_result (fun _ => true)
      ⟨4096, ⟨[JobState.running, JobState.terminated], 32768, ("failed"), ("boom")⟩, []⟩
      false true =
      Except.error (PyError.jobFailure 32768 ("failed") ("boom")) :=
  evaluate_job_failure Bool (fun _ => true) false true
    ⟨4096, ⟨[JobState.running, JobState.terminated], 32768, ("failed"), ("boom")⟩, []⟩
    [JobState.running] JobState.terminated [] rfl rfl
    (by intro x hx; simp at hx; subst hx; rfl) rfl (by decide)

/-- C8: `PropertiesSelector.is_acceptable` iterates `self.properties` (a dict)
without `.items()`, so it tuple-unpacks each KEY string; on the selector
`PropertiesSelector(ValueRole=0)` (built exactly so at its call sites) it
raises `ValueError` even for an object whose `ValueRole` property equals 0,
instead of returning `True`. -/
theorem properties_selector_unpack_bug :
    Selector.is_acceptable
        (Selector.propertiesSelector [(("ValueRole"), PyVal.scalar (PyScalar.vint 0))])
        ⟨7, [(("ValueRole"), PyVal.scalar (PyScalar.vint 0))]⟩
      = Except.error PyError.valueErrorUnpack := rfl

/-- C6 counterexample: a boolean argument with an integer expected tag passes
through unchanged (Python's `isinstance(obj, int)` is true for `bool`),
where the claim demands an `UnsupportedConversion` failure. -/
theorem transform_bool_for_int_passes :
    transform_argument trivialEnv (Arg.abool true) TargetClass.tInt =
      Except.ok (Arg.abool true) := rfl

/-- C6 amended: an integer argument passes through exactly when the expected
tag is integer; a boolean argument passes through when the expected tag is
boolean or integer (bool being a subtype of int in Python); every other
integer/boolean combination raises the transformer's hard type error. -/
theorem transform_int_bool_characterization (env : WmiEnv) (n : Int) (b : Bool) :
    (transform_argument env (Arg.aint n) TargetClass.tInt = Except.ok (Arg.aint n))
    ∧ (transform_argument env (Arg.aint n) TargetClass.tBool
        = Except.error PyError.unknownTransform)
    ∧ (transform_argument env (Arg.aint n) TargetClass.tString
        = Except.error PyError.unknownTransform)
    ∧ (transform_argument env (Arg.aint n) TargetClass.tManagementObject
        = Except.error PyError.unknownTransform)
    ∧ (transform_argument env (Arg.abool b) TargetClass.tInt = Except.ok (Arg.abool b))
    ∧ (transform_argument env (Arg.abool b) TargetClass.tBool = Except.ok (Arg.abool b))
    ∧ (transform_argument env (Arg.abool b) TargetClass.tString
        = Except.error PyError.unknownTransform)
    ∧ (transform_argument env (Arg.abool b) TargetClass.tManagementObject
        = Except.error PyError.unknownTransform) :=
  ⟨rfl, rfl, rfl, rfl, rfl, rfl, rfl, rfl⟩

/-- C9 counterexample: an attribute-style read of a property the store does
not know raises `AttributeError` (the swallowed `ManagementException` merely
hands control to default attribute lookup), instead of returning an
absent/undefined result. -/
theorem getattr_absent_raises :
    PropertiesHolder_getattribute ⟨0, []⟩ ("Foo") = Except.error PyError.attributeError := rfl

/-- C9 amended: for a property-style name, a present property is returned by
both accessors; an absent one makes the attribute-style get raise
`AttributeError` (after swallowing the store's `ManagementException`), while
the explicit index-by-name read fails loudly with `ManagementException`
itself. -/
theorem accessor_soft_loud_amended (mo : ManagementObject) (key : String)
    (hk : key ≠ ("management_object")) :
    (mo.props.lookup key = none →
      PropertiesHolder_getattribute mo key = Except.error PyError.attributeError
      ∧ PropertiesHolder_getitem mo key = Except.error PyError.managementException)
    ∧ (∀ v, mo.props.lookup key = some v →
      PropertiesHolder_getattribute mo key = Except.ok (some v)
      ∧ PropertiesHolder_getitem mo key = Except.ok v) := by
  constructor
  · intro h
    exact ⟨by simp [PropertiesHolder_getattribute, hk, h],
      by simp [PropertiesHolder_getitem, h]⟩
  · intro v h
    exact ⟨by simp [PropertiesHolder_getattribute, hk, h],
      by simp [PropertiesHolder_getitem, h]⟩

/-- C9 witness: a present property is read back by both accessors. -/
theorem accessor_soft_loud_amended_witness :
    PropertiesHolder_getattribute ⟨3, [(("State"), PyVal.scalar (PyScalar.vint 2))]⟩ ("State")
      = Except.ok (some (PyVal.scalar (PyScalar.vint 2)))
    ∧ PropertiesHolder_getitem ⟨3, [(("State"), PyVal.scalar (PyScalar.vint 2))]⟩ ("State")
      = Except.ok (PyVal.scalar (PyScalar.vint 2)) :=
  (accessor_soft_loud_amended ⟨3, [(("State"), PyVal.scalar (PyScalar.vint 2))]⟩ ("State")
    (by decide)).2 (PyVal.scalar (PyScalar.vint 2)) rfl

/-- The shared candidate loop of RelatedNode/RelationshipNode never lets the
source object into its result. -/
theorem filter_candidates_not_self (src : ManagementObject) (sel : Selector) :
    ∀ (cands l : List ManagementObject),
      filter_candidates src sel cands = Except.ok l → src ∉ l := by
  intro cands
  induction cands with
  | nil =>
    intro l h
    rw [filter_candidates] at h
    injection h with h
    subst h
    simp
  | cons rel rest ih =>
    intro l h
    rw [filter_candidates] at h
    by_cases hc : src = rel
    · rw [if_pos hc] at h
      exact ih l h
    · rw [if_neg hc] at h
      cases hsel : sel.is_acceptable rel with
      | error e => rw [hsel] at h; simp at h
      | ok b =>
        rw [hsel] at h
        cases htail : filter_candidates src sel rest with
        | error e => rw [htail] at h; simp at h
        | ok tail =>
          rw [htail] at h
          simp only [except_bind_ok] at h
          have hnt := ih tail htail
          injection h with h
          subst h
          cases b with
          | true =>
            intro hmem
            rcases List.mem_cons.mp (by simpa using hmem) with h | h
            · exact hc h
            · exact hnt h
          | false => simpa using hnt

/-- C5: for RelatedNode and RelationshipNode, a candidate equal to the source
object never appears in the expansion result, whatever the selector. -/
theorem related_relationship_exclude_self (env : WmiEnv) (args₁ args₂ : List PyScalar)
    (sel₁ sel₂ : Selector) (src : ManagementObject) (l₁ l₂ : List ManagementObject)
    (h₁ : Node.get_node_objects (Node.related args₁ sel₁) env src = Except.ok l₁)
    (h₂ : Node.get_node_objects (Node.relationship args₂ sel₂) env src = Except.ok l₂) :
    src ∉ l₁ ∧ src ∉ l₂ := by
  rw [Node.get_node_objects.eq_def] at h₁ h₂
  exact ⟨filter_candidates_not_self src sel₁ _ l₁ h₁,
    filter_candidates_not_self src sel₂ _ l₂ h₂⟩

/-- An environment in which both enumerations return the source object itself
followed by a fresh object: only the fresh object survives expansion. -/
def selfLoopEnv : WmiEnv :=
  ⟨fun src _ => [src, ⟨src.id + 1, src.props⟩],
   fun src _ => [src, ⟨src.id + 1, src.props⟩],
   fun _ => ⟨0, []⟩, fun _ => ("")⟩

/-- C5 witness: with the null selector, expanding from the root drops the
self-candidate from both node kinds. -/
theorem related_relationship_exclude_self_witness :
    (⟨0, []⟩ : ManagementObject) ∉ [(⟨1, []⟩ : ManagementObject)]
    ∧ (⟨0, []⟩ : ManagementObject) ∉ [(⟨1, []⟩ : ManagementObject)] :=
  related_relationship_exclude_self selfLoopEnv [] [] Selector.null Selector.null
    ⟨0, []⟩ [⟨1, []⟩] [⟨1, []⟩] rfl rfl

/-- C1 counterexample: on a traversal yielding zero paths, `get_child` raises
`IndexError` (from `traverse_result[-1]` on an empty list) instead of
returning an absent result. -/
theorem get_child_empty_raises :
    recursive_traverse trivialEnv [Node.related [] Selector.null] ⟨0, []⟩ = Except.ok []
    ∧ get_child trivialEnv [Node.related [] Selector.null] ⟨0, []⟩
      = Except.error PyError.indexError :=
  ⟨rfl, rfl⟩

/-- C1 amended: when the traversal succeeds, `get_child` returns the leaf of
the single path when exactly one path was found, raises `IndexError` when no
path was found, and fails with the ambiguous-result error when two or more
paths were found. -/
theorem get_child_cases (env : WmiEnv) (nodes : List Node) (root : ManagementObject)
    (paths : List (List ManagementObject))
    (h : recursive_traverse env nodes root = Except.ok paths) :
    (paths = [] → get_child env nodes root = Except.error PyError.indexError)
    ∧ (∀ p leaf, paths = [p] → p.getLast? = some leaf →
        get_child env nodes root = Except.ok leaf)
    ∧ (2 ≤ paths.length → get_child env nodes root = Except.error PyError.ambiguousResult) := by
  refine ⟨?_, ?_, ?_⟩
  · rintro rfl
    simp [get_child, h]
  · rintro p leaf rfl hlast
    simp [get_child, h, hlast]
  · intro h2
    have hgt : paths.length > 1 := by omega
    simp [get_child, h, hgt]

/-- An environment in which every object has exactly one related child. -/
def singleChildEnv : WmiEnv :=
  ⟨fun src _ => [⟨src.id + 1, []⟩], fun _ _ => [], fun _ => ⟨0, []⟩, fun _ => ("")⟩

/-- C1 witness: a single-path traversal returns that path's leaf. -/
theorem get_child_cases_witness :
    get_child singleChildEnv [Node.related [] Selector.null] ⟨0, []⟩ =
      Except.ok ⟨1, []⟩ :=
  (get_child_cases singleChildEnv [Node.related [] Selector.null] ⟨0, []⟩
    [[⟨1, []⟩]] rfl).2.1 [⟨1, []⟩] ⟨1, []⟩ rfl rfl

/-- If every object of a step produces a successful recursive result of `m`
paths of length `q`, the inner traversal loop over the step's objects yields
`|objs| * m` paths of length `q + 1`, in depth-first left-to-right order. -/
theorem traverse_children_ok
    (f : ManagementObject → Except PyError (List (List ManagementObject))) (m q : Nat) :
    ∀ l : List ManagementObject,
      (∀ obj ∈ l, ∃ ps, f obj = Except.ok ps ∧ ps.length = m ∧ ∀ p ∈ ps, p.length = q) →
      ∃ res, traverse_children f l = Except.ok res ∧ res.length = l.length * m
        ∧ ∀ p ∈ res, p.length = q + 1 := by
  intro l
  induction l with
  | nil =>
    intro _
    exact ⟨[], rfl, by simp, by simp⟩
  | cons obj rest ih =>
    intro h
    obtain ⟨ps, hf, hlen, hq⟩ := h obj (by simp)
    obtain ⟨tailres, htail, htlen, htq⟩ := ih (fun o ho => h o (by simp [ho]))
    refine ⟨ps.map (fun cs => obj :: cs) ++ tailres, ?_, ?_, ?_⟩
    · rw [traverse_children, hf, htail]
      simp
    · simp [hlen, htlen]
      ring
    · intro p hp
      rcases List.mem_append.mp hp with hp | hp
      · obtain ⟨cs, hcs, rfl⟩ := List.mem_map.mp hp
        simp [hq cs hcs]
      · exact htq p hp

/-- C4: for every non-empty traversal template where step `i` expands every
object into exactly `b i` surviving candidates (that is, no selector or
self-exclusion removes anything from the `b i` produced), the traversal
succeeds with exactly `∏ b i` complete paths, each of length equal to the
template length. -/
theorem traversal_path_product (env : WmiEnv) :
    ∀ (nodes : List Node) (branching : List Nat) (root : ManagementObject),
      nodes ≠ [] →
      List.Forall₂ (fun nd k => ∀ obj : ManagementObject,
        ∃ l, Node.get_node_objects nd env obj = Except.ok l ∧ l.length = k) nodes branching →
      ∃ paths, recursive_traverse env nodes root = Except.ok paths
        ∧ paths.length = branching.prod
        ∧ ∀ p ∈ paths, p.length = nodes.length := by
  intro nodes
  induction nodes with
  | nil =>
    intro branching root hne _
    exact absurd rfl hne
  | cons nd rest ih =>
    intro branching root _ h
    obtain ⟨k, ks, hnd, htail, rfl⟩ := List.forall₂_cons_left_iff.mp h
    obtain ⟨l, hl, hlen⟩ := hnd root
    cases rest with
    | nil =>
      rw [List.forall₂_nil_left_iff] at htail
      subst htail
      refine ⟨l.map (fun o => [o]), ?_, ?_, ?_⟩
      · rw [recursive_traverse, hl]
        simp
      · simp [hlen]
      · intro p hp
        obtain ⟨o, _, rfl⟩ := List.mem_map.mp hp
        simp
    | cons nd₂ rest₂ =>
      have hchild : ∀ obj ∈ l, ∃ ps,
          recursive_traverse env (nd₂ :: rest₂) obj = Except.ok ps
          ∧ ps.length = ks.prod ∧ ∀ p ∈ ps, p.length = (nd₂ :: rest₂).length := by
        intro obj _
        exact ih ks obj (by simp) htail
      obtain ⟨res, hres, hreslen, hresq⟩ :=
        traverse_children_ok (fun o => recursive_traverse env (nd₂ :: rest₂) o)
          ks.prod (nd₂ :: rest₂).length l hchild
      refine ⟨res, ?_, ?_, ?_⟩
      · rw [recursive_traverse, hl]
        simpa using hres
      · rw [hreslen, hlen]
        simp [List.prod_cons]
      · intro p hp
        have := hresq p hp
        simpa using this

/-- An environment in which every object has exactly two fresh related
children (identities strictly larger than the parent's, so self-exclusion
never fires). -/
def doublingEnv : WmiEnv :=
  ⟨fun src _ => [⟨2 * src.id + 1, []⟩, ⟨2 * src.id + 2, []⟩],
   fun _ _ => [], fun _ => ⟨0, []⟩, fun _ => ("")⟩

/-- C4 witness: a two-step template with branching factor two at each step
yields four complete paths of length two. -/
theorem traversal_path_product_witness :
    ∃ paths, recursive_traverse doublingEnv
        [Node.related [] Selector.null, Node.related [] Selector.null] ⟨0, []⟩
      = Except.ok paths ∧ paths.length = 4 ∧ ∀ p ∈ paths, p.length = 2 := by
  have hexp : ∀ obj : ManagementObject,
      ∃ l, Node.get_node_objects (Node.related [] Selector.null) doublingEnv obj
        = Except.ok l ∧ l.length = 2 := by
    intro obj
    refine ⟨[⟨2 * obj.id + 1, []⟩, ⟨2 * obj.id + 2, []⟩], ?_, rfl⟩
    have h1 : obj ≠ (⟨2 * obj.id + 1, []⟩ : ManagementObject) := by
      intro h
      have := congrArg ManagementObject.id h
      simp at this
      omega
    have h2 : obj ≠ (⟨2 * obj.id + 2, []⟩ : ManagementObject) := by
      intro h
      have := congrArg ManagementObject.id h
      simp at this
      omega
    rw [Node.get_node_objects.eq_def]
    show filter_candidates obj Selector.null
        [⟨2 * obj.id + 1, []⟩, ⟨2 * obj.id + 2, []⟩] = _
    rw [filter_candidates, if_neg h1, filter_candidates, if_neg h2, filter_candidates]
    simp [Selector.is_acceptable]
  have h := traversal_path_product doublingEnv
    [Node.related [] Selector.null, Node.related [] Selector.null] [2, 2] ⟨0, []⟩
    (by simp) (List.Forall₂.cons hexp (List.Forall₂.cons hexp List.Forall₂.nil))
  simpa using h

/-- A formal parameter whose target class is unknown or which is missing from
kwargs makes the parameter-preparation step fail. -/
theorem prepare_step_error_of_missing (env : WmiEnv) (kwargs : List (String × ArgVal))
    (p : FormalParam) (hmiss : kwargs.lookup p.Name = none) :
    ∃ e, prepare_step env kwargs p = Except.error e := by
  cases htc : target_class p.ctype with
  | error e => exact ⟨e, by simp [prepare_step, htc]⟩
  | ok t => exact ⟨PyError.missingParameter p.Name, by simp [prepare_step, htc, hmiss]⟩

/-- When some formal parameter is absent from kwargs, the whole parameter
preparation fails with some error. -/
theorem prepare_error_of_missing (env : WmiEnv) (kwargs : List (String × ArgVal)) :
    ∀ formals : List FormalParam,
      (∃ p ∈ formals, kwargs.lookup p.Name = none) →
      ∃ e, prepare env kwargs formals = Except.error e := by
  intro formals
  induction formals with
  | nil =>
    rintro ⟨p, hp, _⟩
    exact absurd hp (List.not_mem_nil p)
  | cons q rest ih =>
    rintro ⟨p, hp, hmiss⟩
    rcases List.mem_cons.mp hp with rfl | hp₂
    · obtain ⟨e, he⟩ := prepare_step_error_of_missing env kwargs p hmiss
      exact ⟨e, by simp [prepare, he]⟩
    · cases hstep : prepare_step env kwargs q with
      | error e => exact ⟨e, by simp [prepare, hstep]⟩
      | ok x =>
        obtain ⟨e, he⟩ := ih ⟨p, hp₂, hmiss⟩
        exact ⟨e, by simp [prepare, hstep, he]⟩

/-- When every parameter before the first absent one prepares successfully and
the absent parameter's type is known, preparation fails precisely with
`MissingParameter` for that parameter. -/
theorem prepare_missing_first (env : WmiEnv) (kwargs : List (String × ArgVal)) :
    ∀ (pre : List FormalParam) (p : FormalParam) (rest : List FormalParam),
      kwargs.lookup p.Name = none →
      exceptOk (target_class p.ctype) = true →
      (∀ q ∈ pre, exceptOk (prepare_step env kwargs q) = true) →
      prepare env kwargs (pre ++ p :: rest)
        = Except.error (PyError.missingParameter p.Name) := by
  intro pre
  induction pre with
  | nil =>
    intro p rest hmiss htc _
    have hstep : prepare_step env kwargs p = Except.error (PyError.missingParameter p.Name) := by
      cases h : target_class p.ctype with
      | error e => rw [h] at htc; simp [exceptOk] at htc
      | ok t => simp [prepare_step, h, hmiss]
    simp [prepare, hstep]
  | cons q pre ih =>
    intro p rest hmiss htc hpre
    have hq := hpre q (by simp)
    cases hstep : prepare_step env kwargs q with
    | error e => rw [hstep] at hq; simp [exceptOk] at hq
    | ok x =>
      have hrec := ih p rest hmiss htc (fun r hr => hpre r (by simp [hr]))
      simp [prepare, hstep, hrec]

/-- C7 amended: when a formal parameter is absent from the supplied named
arguments, `invoke` fails before the remote method-call capability is
consulted (the outcome is an error and is independent of the capability);
the error is `MissingParameter` for the first absent parameter whenever
every earlier parameter prepares successfully and the absent parameter's
type tag is known, though a transform error on an earlier supplied
parameter surfaces instead when one occurs. -/
theorem invoke_missing_parameter (env : WmiEnv)
    (call call₂ : List (String × Option PrepVal) → List OutProp)
    (pre : List FormalParam) (p : FormalParam) (rest : List FormalParam)
    (kwargs : List (String × ArgVal))
    (hmiss : kwargs.lookup p.Name = none) :
    (∃ e, invoke env call (pre ++ p :: rest) kwargs = Except.error e)
    ∧ invoke env call (pre ++ p :: rest) kwargs = invoke env call₂ (pre ++ p :: rest) kwargs
    ∧ (exceptOk (target_class p.ctype) = true →
        (∀ q ∈ pre, exceptOk (prepare_step env kwargs q) = true) →
        invoke env call (pre ++ p :: rest) kwargs
          = Except.error (PyError.missingParameter p.Name)) := by
  obtain ⟨e, he⟩ := prepare_error_of_missing env kwargs (pre ++ p :: rest)
    ⟨p, by simp, hmiss⟩
  refine ⟨⟨e, by simp [invoke, he]⟩, by simp [invoke, he], ?_⟩
  intro htc hpre
  have hfirst := prepare_missing_first env kwargs pre p rest hmiss htc hpre
  simp [invoke, hfirst]

/-- Formal parameters used by the C7 artifacts: A is supplied with an
ill-typed value, B is absent. -/
def missingParamFormals : List FormalParam :=
  [⟨("A"), CimType.boolean, false⟩, ⟨("B"), CimType.boolean, false⟩]

/-- Kwargs supplying a ManagementObject for the Boolean parameter A and
nothing for B. -/
def missingParamKwargs : List (String × ArgVal) :=
  [(("A"), ArgVal.scalar (Arg.amo ⟨5, []⟩))]

/-- A remote method-call capability returning an empty output bag. -/
def noopCall : List (String × Option PrepVal) → List OutProp := fun _ => []

/-- C7 counterexample: formal parameter B is absent from kwargs, yet `invoke`
fails with the transformer's error on the earlier parameter A (a
ManagementObject supplied for a Boolean parameter), not with
`MissingParameter`. -/
theorem invoke_missing_preempted :
    missingParamKwargs.lookup (("B") : String) = none
    ∧ invoke trivialEnv noopCall missingParamFormals missingParamKwargs
      = Except.error PyError.cannotTransform :=
  ⟨rfl, rfl⟩

/-- C7 witness: with a single absent parameter, `invoke` fails with
`MissingParameter` for it. -/
theorem invoke_missing_parameter_witness :
    invoke trivialEnv noopCall [⟨("A"), CimType.boolean, false⟩] []
      = Except.error (PyError.missingParameter ("A")) :=
  (invoke_missing_parameter trivialEnv noopCall noopCall []
    ⟨("A"), CimType.boolean, false⟩ [] [] rfl).2.2 rfl
    (by intro q hq; exact absurd hq (List.not_mem_nil q))

end HvApi
